import Mathlib

/-!
Verification development for the SmartHealthyScan capture-and-analysis core.

The embedding models three source units:

* the camera controller (`startCamera`, `capturePhoto`): camera acquisition
  with a preferred-then-minimal constraint fallback, still-image capture that
  encodes the current frame and stops the device tracks;
* the remote-analysis collaborator (`analyzeIngredientsAndGetRecipes`): reads
  the API credential from process configuration at each invocation, and
  normalizes every failure of the underlying call into one of two
  user-facing messages by sniffing the error message for transport markers;
* the orchestrator (`handleCapture`): races the analysis promise against a
  35000 ms rejection timer and folds the first settlement into the
  application state, absorbing the loser's later settlement.

Platform effects (DOM refs, the media device, the network call, JSON
parsing) are made explicit as function parameters or state components so
that every definition is executable.
-/

namespace SmartScan

/-- Recipe difficulty, source union type of the three literals 简单 / 中等 / 困难. -/
inductive Difficulty
  | simple
  | medium
  | hard
deriving DecidableEq

/-- Ingredient record from types: name, info, optional nutrition tag,
optional calories-per-100g integer. -/
structure IngredientInfo where
  name : String
  info : String
  nutrition : Option String
  caloriesPer100g : Option Int
deriving DecidableEq

/-- Recipe record from types. -/
structure Recipe where
  id : String
  name : String
  description : String
  difficulty : Difficulty
  prepTime : String
  allIngredients : List String
  instructions : List String
  calories : Option String
deriving DecidableEq

/-- The structured document the analysis collaborator resolves with. -/
structure AnalysisResponse where
  ingredients : List IngredientInfo
  recipes : List Recipe
deriving DecidableEq

/-- Does `hay` start with `need` (character lists)? -/
def listStartsWith : List Char → List Char → Bool
  | _, [] => true
  | [], _ :: _ => false
  | a :: as, b :: bs => a == b && listStartsWith as bs

/-- Does `hay` contain `need` as a contiguous run (character lists)? -/
def listHasSub : List Char → List Char → Bool
  | [], need => listStartsWith [] need
  | a :: t, need => listStartsWith (a :: t) need || listHasSub t need

/-- Model of the JavaScript `String.prototype.includes`. -/
def strIncludes (s sub : String) : Bool :=
  listHasSub s.data sub.data

/-- Split a character list on a separator character, JavaScript
`split` semantics (an empty input yields one empty field). -/
def splitOnChar (sep : Char) : List Char → List (List Char)
  | [] => [[]]
  | a :: t =>
    let r := splitOnChar sep t
    if a == sep then [] :: r
    else
      match r with
      | [] => [[a]]
      | h :: t2 => (a :: h) :: t2

/-- Model of the JavaScript `s.split(sep)` for a one-character separator. -/
def jsSplit (s : String) (sep : Char) : List String :=
  (splitOnChar sep s.data).map fun l => ⟨l⟩

/-- A device track; `stopped` is set by an explicit `track.stop()` only
(no implicit garbage-collected release). -/
structure MediaTrack where
  stopped : Bool
deriving DecidableEq

/-- A media stream as a bundle of tracks. -/
structure MediaStream where
  tracks : List MediaTrack
deriving DecidableEq

/-- Model of `stream.getTracks().forEach(track => track.stop())`. -/
def MediaStream.stopAllTracks (m : MediaStream) : MediaStream :=
  ⟨m.tracks.map fun _ => ⟨true⟩⟩

/-- A stream is live while at least one of its tracks has not been stopped. -/
def MediaStream.isLive (m : MediaStream) : Bool :=
  m.tracks.any fun t => !t.stopped

/-- All media streams ever handed out by the device, in acquisition order;
a stream's identifier is its index in this list. -/
structure DeviceWorld where
  streams : List MediaStream
deriving DecidableEq

/-- Number of streams whose tracks are not all stopped. -/
def DeviceWorld.liveCount (w : DeviceWorld) : Nat :=
  (w.streams.filter MediaStream.isLive).length

/-- Stop every track of the stream at the given index. -/
def stopStreamAt : List MediaStream → Nat → List MediaStream
  | [], _ => []
  | m :: t, 0 => m.stopAllTracks :: t
  | m :: t, n + 1 => m :: stopStreamAt t n

/-- The observable content of a `getUserMedia` constraint object:
video on/off, audio on/off, ideal rear-facing mode, ideal resolution. -/
structure Constraints where
  video : Bool
  audio : Bool
  facingModeIdealEnvironment : Bool
  idealWidth : Option Nat
  idealHeight : Option Nat
deriving DecidableEq

/-- First attempt of `startCamera`: video only, rear-facing camera
preferred, 1920 by 1080 ideal resolution. -/
def preferredConstraints : Constraints :=
  ⟨true, false, true, some 1920, some 1080⟩

/-- Fallback attempt of `startCamera`: plain video true, audio false. -/
def minimalConstraints : Constraints :=
  ⟨true, false, false, none, none⟩

/-- Model of `navigator.mediaDevices.getUserMedia`: the environment's grant
policy decides whether a request with the given constraints succeeds; on
success a fresh stream with `deviceTracks` live tracks is allocated. -/
def getUserMedia (grant : Constraints → Bool) (deviceTracks : Nat)
    (c : Constraints) (w : DeviceWorld) : Option Nat × DeviceWorld :=
  if grant c then
    (some w.streams.length, ⟨w.streams ++ [⟨List.replicate deviceTracks ⟨false⟩⟩]⟩)
  else (none, w)

/-- The CameraView component state: the user-facing error, the
stream-active flag, the last captured data URL, and the stream attached to
the video element (`videoRef.current.srcObject`). -/
structure CameraState where
  error : Option String
  streamActive : Bool
  capturedImage : Option String
  videoSrcObject : Option Nat
deriving DecidableEq

/-- User-facing message set when both acquisition attempts are rejected. -/
def cameraErrMsg : String := "无法访问摄像头。请检查权限设置。"

/-- The nested try of `startCamera`: request the preferred constraints,
and on rejection retry once with the minimal constraints. Returns the
acquired stream (if any), the updated device world, and the trace of
constraint objects requested, in order. -/
def acquireStream (grant : Constraints → Bool) (deviceTracks : Nat)
    (w : DeviceWorld) : Option Nat × DeviceWorld × List Constraints :=
  match getUserMedia grant deviceTracks preferredConstraints w with
  | (some id, w1) => (some id, w1, [preferredConstraints])
  | (none, w1) =>
    match getUserMedia grant deviceTracks minimalConstraints w1 with
    | (some id, w2) => (some id, w2, [preferredConstraints, minimalConstraints])
    | (none, w2) => (none, w2, [preferredConstraints, minimalConstraints])

/-- Model of `startCamera`. It first clears the captured image, then
acquires a stream through `acquireStream`. On success, when the video
element is mounted, the stream is attached as its `srcObject` and
`streamActive` is set immediately only when `readyState` is already at
least 2 (the `onplaying` and `onloadedmetadata` callbacks fire later and
are outside this synchronous model); `error` is then cleared. When both
acquisition attempts are rejected the outer catch stores the camera error
message. There is no guard against a call while a stream is already live. -/
def startCamera (grant : Constraints → Bool) (deviceTracks : Nat)
    (videoPresent readyStateAtLeast2 : Bool)
    (s : CameraState) (w : DeviceWorld) :
    CameraState × DeviceWorld × List Constraints :=
  let s0 : CameraState :=
    { s with capturedImage := none }
  match acquireStream grant deviceTracks w with
  | (some id, w1, reqs) =>
    if videoPresent then
      ({ s0 with videoSrcObject := some id,
                 streamActive := readyStateAtLeast2 || s0.streamActive,
                 error := none }, w1, reqs)
    else ({ s0 with error := none }, w1, reqs)
  | (none, w1, reqs) =>
    ({ s0 with error := some cameraErrMsg }, w1, reqs)

/-- Per-call environment of `capturePhoto`: whether the video and canvas
refs are mounted, the current frame dimensions, whether a 2d context is
available, whether `drawImage` and `toDataURL` complete without throwing,
and the data URL `toDataURL` returns when it succeeds. -/
structure CaptureEnv where
  videoPresent : Bool
  canvasPresent : Bool
  videoWidth : Nat
  videoHeight : Nat
  ctxPresent : Bool
  drawOk : Bool
  encodeOk : Bool
  dataUrl : String
deriving DecidableEq

/-- Model of `capturePhoto`. Returns the new component state, the device
world, and the list of base64 payloads handed to the `onCapture` callback
(the orchestration entry point). The no-op paths: already processing, an
unmounted ref or inactive stream, a zero-dimension frame, a missing 2d
context, or a throw from `drawImage` or `toDataURL` (caught by the inner
try with no state mutated before the throw becomes visible). On the
successful path the data URL is stored, the payload after the first comma
is delivered when non-empty, and all tracks of the attached stream are
stopped with `streamActive` reset. The flash flag and the canvas size
mutation are pure presentation and are not modelled. -/
def capturePhoto (isProcessing : Bool) (env : CaptureEnv)
    (s : CameraState) (w : DeviceWorld) :
    CameraState × DeviceWorld × List String :=
  if isProcessing then (s, w, [])
  else if env.videoPresent && env.canvasPresent && s.streamActive then
    if env.videoWidth = 0 ∨ env.videoHeight = 0 then (s, w, [])
    else if env.ctxPresent then
      if env.drawOk && env.encodeOk then
        let s1 : CameraState := { s with capturedImage := some env.dataUrl }
        let delivered : List String :=
          match (jsSplit env.dataUrl ',').get? 1 with
          | some b => if b = "" then [] else [b]
          | none => []
        match s1.videoSrcObject with
        | some id =>
          ({ s1 with streamActive := false }, ⟨stopStreamAt w.streams id⟩, delivered)
        | none => (s1, w, delivered)
      else (s, w, [])
    else (s, w, [])
  else (s, w, [])

/-- Timeout rejection message of the orchestrator's deadline timer. -/
def timeoutMsg : String := "分析时间过长，请检查网络后重试。"

/-- Fallback message used when a caught rejection carries an empty message. -/
def fallbackMsg : String := "分析失败，请稍后重试。"

/-- Message produced for a rejection recognized as transport-level. -/
def netErrMsg : String := "网络请求失败，请检查网络或重试。"

/-- Message produced for every other analysis failure. -/
def malformedMsg : String := "识别食材失败，请确保图片清晰并重试。"

/-- Process-wide configuration, `process.env`. -/
abbrev EnvMap := String → Option String

/-- The collaborator client; it retains the credential it was built with. -/
structure GoogleGenAI where
  apiKey : Option String

/-- Client construction performed inside every invocation of the analysis
function: the credential is read from the environment at call time. -/
def mkGoogleGenAI (env : EnvMap) : GoogleGenAI :=
  ⟨env "API_KEY"⟩

/-- Settlement of the underlying `generateContent` call: it resolves with
a response whose `text` is absent, empty, or some payload, or it rejects
with an error message. -/
inductive ApiCall
  | resolved (text : Option String)
  | rejected (msg : String)

/-- The catch clause of the analysis function: a caught error whose
message contains an `xhr error` or `500` marker is reported as the
network message, anything else as the malformed-response message. -/
def normalizeGeminiError (msg : String) : String :=
  if strIncludes msg "xhr error" || strIncludes msg "500" then netErrMsg
  else malformedMsg

/-- The try/catch body of the analysis function. An absent or empty
`response.text` raises the internal empty-content error. `parse` stands
for the platform's `JSON.parse` followed by the unchecked cast to the
response type; a parse failure carries the platform's syntax-error
message. The single catch normalizes every caught error — the rejection
of the underlying call, the empty-content error, and a parse failure —
through the same message sniff. -/
def generateAndParse (parse : String → Except String AnalysisResponse)
    (call : ApiCall) : Except String AnalysisResponse :=
  match call with
  | .rejected msg => .error (normalizeGeminiError msg)
  | .resolved none => .error (normalizeGeminiError "API 返回内容为空")
  | .resolved (some t) =>
    if t = "" then .error (normalizeGeminiError "API 返回内容为空")
    else
      match parse t.trim with
      | .ok v => .ok v
      | .error em => .error (normalizeGeminiError em)

/-- Model of `analyzeIngredientsAndGetRecipes`: builds the client from the
call-time environment and produces the normalized analysis result. -/
def analyzeIngredientsAndGetRecipes (env : EnvMap)
    (parse : String → Except String AnalysisResponse) (call : ApiCall) :
    GoogleGenAI × Except String AnalysisResponse :=
  (mkGoogleGenAI env, generateAndParse parse call)

/-- Observable record of one orchestration session: the settlements
delivered to the caller (in order), the count of settlements absorbed by
the already-settled race, and the count of rejections that no attached
reaction handled. -/
structure RaceRun where
  delivered : List (Except String AnalysisResponse)
  absorbed : Nat
  unhandledRejections : Nat

/-- One settlement event reaching the race: `handled` lists the promises
the race attached reactions to. The first settlement of a handled promise
is delivered; later settlements of handled promises are absorbed; a
rejection of a promise with no attached reaction would count as
unhandled. -/
def raceStep (handled : List Nat) (st : RaceRun)
    (e : Nat × Except String AnalysisResponse) : RaceRun :=
  if handled.contains e.1 then
    match st.delivered with
    | [] => { st with delivered := [e.2] }
    | _ :: _ => { st with absorbed := st.absorbed + 1 }
  else
    match e.2 with
    | .error _ => { st with unhandledRejections := st.unhandledRejections + 1 }
    | .ok _ => st

/-- Model of `Promise.race` applied to a settlement timeline. -/
def promiseRace (handled : List Nat)
    (events : List (Nat × Except String AnalysisResponse)) : RaceRun :=
  events.foldl (raceStep handled) ⟨[], 0, 0⟩

/-- Settlement timeline of one orchestration session: promise 0 is the
analysis call (settling at `tA`, if ever, with result `r`), promise 1 is
the deadline timer, which always rejects with the timeout message at the
deadline. Event order follows settlement time; when the analysis settles
at or after the deadline the timer event comes first. -/
def sessionEvents (deadline : Nat) (tA : Option Nat)
    (r : Except String AnalysisResponse) :
    List (Nat × Except String AnalysisResponse) :=
  match tA with
  | none => [(1, .error timeoutMsg)]
  | some t =>
    if t < deadline then [(0, r), (1, .error timeoutMsg)]
    else [(1, .error timeoutMsg), (0, r)]

/-- One orchestration session: `handleCapture` races exactly the analysis
promise and the timer, so reactions are attached to both. -/
def runSession (deadline : Nat) (tA : Option Nat)
    (r : Except String AnalysisResponse) : RaceRun :=
  promiseRace [0, 1] (sessionEvents deadline tA r)

/-- The App component state around one orchestration session. -/
structure AppState where
  isProcessing : Bool
  result : Option AnalysisResponse
  error : Option String
deriving DecidableEq

/-- Model of `handleCapture`: processing is turned on and the error
cleared, the race is awaited, then the try/catch stores the result on
fulfillment or the caught message (with the empty-message fallback) on
rejection, and the finally clears the processing flag. The unsettled
branch cannot occur because the timer always fires; it is kept as the
mid-flight state. -/
def handleCapture (s : AppState) (tA : Option Nat)
    (r : Except String AnalysisResponse) : AppState :=
  match (runSession 35000 tA r).delivered.head? with
  | some (.ok v) => ⟨false, some v, none⟩
  | some (.error m) => ⟨false, s.result, some (if m = "" then fallbackMsg else m)⟩
  | none => ⟨true, s.result, none⟩

/-- A concrete collaborator response used by the evaluation theorems. -/
def demoResponse : AnalysisResponse :=
  ⟨[⟨"番茄", "富含维生素C，热量低", some "低卡高纤维", some 18⟩],
   [⟨"r1", "番茄蛋花汤", "快手低脂汤品", Difficulty.simple, "10分钟",
     ["番茄", "鸡蛋", "水"], ["切块", "煮沸", "淋入蛋液"], some "约80 kcal"⟩]⟩

/-- Initial App state: not processing, no result, no error. -/
def appInit : AppState := ⟨false, none, none⟩

/-- A Streaming-phase component state: stream 0 attached and active. -/
def streamingCamState : CameraState := ⟨none, true, none, some 0⟩

/-- A device world holding exactly one live single-track stream. -/
def oneLiveWorld : DeviceWorld := ⟨[⟨[⟨false⟩]⟩]⟩

/-- A component state after a capture: image stored, stream inactive. -/
def capturedCamState : CameraState :=
  ⟨none, false, some "data:image/jpeg;base64,ZnJhbWU=", some 0⟩

/-- The device world after a capture: the one stream has been stopped. -/
def capturedWorld : DeviceWorld := ⟨[⟨[⟨true⟩]⟩]⟩

/-- A pre-stream component state: nothing attached, stream inactive. -/
def idleCamState : CameraState := ⟨none, false, none, none⟩

/-- A capture environment on the happy path: refs mounted, 640 by 480
frame, context available, draw and encode succeed. -/
def streamEnv : CaptureEnv :=
  ⟨true, true, 640, 480, true, true, true, "data:image/jpeg;base64,QUJD"⟩

/-- A capture environment where `drawImage` throws. -/
def failingDrawEnv : CaptureEnv :=
  ⟨true, true, 640, 480, true, false, true, "data:image/jpeg;base64,QUJD"⟩

/-- Configuration before a credential rotation. -/
def envBefore : EnvMap :=
  fun k => if k = "API_KEY" then some "key-v1" else none

/-- Configuration after a credential rotation. -/
def envAfter : EnvMap :=
  fun k => if k = "API_KEY" then some "key-v2" else none

/-- When the analysis promise never settles, the session delivers exactly
the timeout rejection. -/
theorem runSession_never (r : Except String AnalysisResponse) :
    runSession 35000 none r = ⟨[.error timeoutMsg], 0, 0⟩ := rfl

/-- When the analysis promise settles at or after the deadline, the timer
event wins and the late analysis settlement is absorbed. -/
theorem runSession_late (t : Nat) (r : Except String AnalysisResponse)
    (ht : 35000 ≤ t) :
    runSession 35000 (some t) r = ⟨[.error timeoutMsg], 1, 0⟩ := by
  simp only [runSession, sessionEvents]
  rw [if_neg (by omega)]
  rfl

/-- When the analysis promise settles before the deadline, its settlement
is delivered and the later timer rejection is absorbed. -/
theorem runSession_early (t : Nat) (r : Except String AnalysisResponse)
    (ht : t < 35000) :
    runSession 35000 (some t) r = ⟨[r], 1, 0⟩ := by
  simp only [runSession, sessionEvents]
  rw [if_pos ht]
  rfl

/-- C1: one orchestration session with the 35000 ms deadline delivers
exactly one outcome and leaves no rejection unhandled; when the analysis
call has not settled at the deadline the delivered outcome is the timeout
rejection, `handleCapture` stores the timeout message with processing off,
and the late settlement of the abandoned analysis call (when it exists) is
absorbed by the already-settled race rather than delivered. -/
theorem handleCapture_exactly_once_timeout (tA : Option Nat)
    (r : Except String AnalysisResponse) (s : AppState)
    (h : ∀ t, tA = some t → 35000 ≤ t) :
    (∀ u q, (runSession 35000 u q).delivered.length = 1 ∧
      (runSession 35000 u q).unhandledRejections = 0) ∧
    (runSession 35000 tA r).delivered = [.error timeoutMsg] ∧
    (tA.isSome = true → (runSession 35000 tA r).absorbed = 1) ∧
    handleCapture s tA r = ⟨false, s.result, some timeoutMsg⟩ := by
  have hone : ∀ u q, (runSession 35000 u q).delivered.length = 1 ∧
      (runSession 35000 u q).unhandledRejections = 0 := by
    intro u q
    cases u with
    | none => rw [runSession_never]; exact ⟨rfl, rfl⟩
    | some t =>
      by_cases htl : t < 35000
      · rw [runSession_early t q htl]; exact ⟨rfl, rfl⟩
      · rw [runSession_late t q (by omega)]; exact ⟨rfl, rfl⟩
  refine ⟨hone, ?_, ?_, ?_⟩
  · cases tA with
    | none => rw [runSession_never]
    | some t => rw [runSession_late t r (h t rfl)]
  · intro hsome
    cases tA with
    | none => simp at hsome
    | some t => rw [runSession_late t r (h t rfl)]
  · unfold handleCapture
    cases tA with
    | none =>
      rw [runSession_never]
      simp only [List.head?]
      rw [if_neg (show ¬timeoutMsg = "" by decide)]
    | some t =>
      rw [runSession_late t r (h t rfl)]
      simp only [List.head?]
      rw [if_neg (show ¬timeoutMsg = "" by decide)]

/-- Evaluation of C1 at the spec's scenario: the analysis call resolves
successfully at 40000 ms against the 35000 ms deadline; the session
delivers only the timeout failure, absorbs the late success, and the App
state shows the timeout message. -/
theorem handleCapture_exactly_once_timeout_witness :
    (runSession 35000 (some 40000) (.ok demoResponse)).delivered =
      [.error timeoutMsg] ∧
    (runSession 35000 (some 40000) (.ok demoResponse)).absorbed = 1 ∧
    handleCapture appInit (some 40000) (.ok demoResponse) =
      ⟨false, none, some timeoutMsg⟩ := by
  have H := handleCapture_exactly_once_timeout (some 40000) (.ok demoResponse)
    appInit (by intro t ht; injection ht with h2; omega)
  exact ⟨H.2.1, H.2.2.1 rfl, H.2.2.2⟩

/-- C7: when the collaborator resolves before the deadline with text whose
parse yields a valid two-collection document `v`, the analysis function
returns `v` unchanged, the session delivers exactly that success (the
timer's later rejection is absorbed, nothing unhandled), and the App state
stores exactly `v` as the result. -/
theorem analysis_success_passthrough (env : EnvMap)
    (parse : String → Except String AnalysisResponse) (t : String)
    (v : AnalysisResponse) (tA : Nat) (s : AppState)
    (hp : parse t.trim = .ok v) (ht : t ≠ "") (htime : tA < 35000) :
    (analyzeIngredientsAndGetRecipes env parse (.resolved (some t))).2 = .ok v ∧
    (runSession 35000 (some tA) (.ok v)).delivered = [.ok v] ∧
    (runSession 35000 (some tA) (.ok v)).absorbed = 1 ∧
    (runSession 35000 (some tA) (.ok v)).unhandledRejections = 0 ∧
    handleCapture s (some tA) (.ok v) = ⟨false, some v, none⟩ := by
  have hres : (analyzeIngredientsAndGetRecipes env parse (.resolved (some t))).2 =
      .ok v := by
    show generateAndParse parse (.resolved (some t)) = .ok v
    simp only [generateAndParse, if_neg ht, hp]
  have hrun := runSession_early tA (.ok v) htime
  refine ⟨hres, by rw [hrun], by rw [hrun], by rw [hrun], ?_⟩
  unfold handleCapture
  rw [hrun]
  rfl

/-- Evaluation of C7 on a concrete session: a parse producing the demo
document at 1000 ms yields the demo document as the stored result. -/
theorem analysis_success_passthrough_witness :
    (analyzeIngredientsAndGetRecipes (fun _ => none)
      (fun _ => .ok demoResponse) (.resolved (some "demo"))).2 =
      .ok demoResponse ∧
    (runSession 35000 (some 1000) (.ok demoResponse)).delivered =
      [.ok demoResponse] ∧
    (runSession 35000 (some 1000) (.ok demoResponse)).absorbed = 1 ∧
    (runSession 35000 (some 1000) (.ok demoResponse)).unhandledRejections = 0 ∧
    handleCapture appInit (some 1000) (.ok demoResponse) =
      ⟨false, some demoResponse, none⟩ :=
  analysis_success_passthrough (fun _ => none) (fun _ => .ok demoResponse)
    "demo" demoResponse 1000 appInit rfl (by decide) (by decide)

/-- C4 counterexample: the analysis promise rejecting with a transport
failure whose message carries neither sniffed marker ("connection
refused") is reported with the malformed-response message, not the
network-error message. -/
theorem analyze_transport_misclassified :
    (analyzeIngredientsAndGetRecipes (fun _ => none)
      (fun _ => .error "SyntaxError: unexpected token")
      (.rejected "connection refused")).2 = .error malformedMsg ∧
    malformedMsg ≠ netErrMsg := by
  exact ⟨rfl, by decide⟩

/-- C4 (amended): for analysis calls settling before the deadline, every
caught error is normalized by the same message sniff — the network-error
message exactly when the caught message contains "xhr error" or "500",
the malformed-response message otherwise. Hence a rejection of the
underlying call is classified by its message; an absent or empty response
text yields the malformed-response message (the internal empty-content
message carries no marker); a parse failure is classified by the
platform's syntax-error message, so a malformed response yields the
malformed-response message only when that message carries no marker and
is misreported with the network message otherwise; a parseable response
is returned as success; and the session delivers exactly the normalized
result with no unhandled rejection. -/
theorem analyze_error_normalization (env : EnvMap)
    (parse : String → Except String AnalysisResponse) (call : ApiCall)
    (tA : Nat) (htime : tA < 35000) :
    (analyzeIngredientsAndGetRecipes env parse call).2 =
      generateAndParse parse call ∧
    (∀ msg, call = ApiCall.rejected msg →
      generateAndParse parse call =
        .error (if strIncludes msg "xhr error" || strIncludes msg "500"
          then netErrMsg else malformedMsg)) ∧
    ((call = ApiCall.resolved none ∨ call = ApiCall.resolved (some "")) →
      generateAndParse parse call = .error malformedMsg) ∧
    (∀ t em, call = ApiCall.resolved (some t) → t ≠ "" →
      parse t.trim = .error em →
      generateAndParse parse call =
        .error (if strIncludes em "xhr error" || strIncludes em "500"
          then netErrMsg else malformedMsg)) ∧
    (∀ t v, call = ApiCall.resolved (some t) → t ≠ "" →
      parse t.trim = .ok v → generateAndParse parse call = .ok v) ∧
    (runSession 35000 (some tA) (generateAndParse parse call)).delivered =
      [generateAndParse parse call] ∧
    RaceRun.unhandledRejections
      (runSession 35000 (some tA) (generateAndParse parse call)) = 0 := by
  have hrun := runSession_early tA (generateAndParse parse call) htime
  refine ⟨rfl, ?_, ?_, ?_, ?_, by rw [hrun], by rw [hrun]⟩
  · rintro msg rfl
    rfl
  · rintro (rfl | rfl)
    · rfl
    · rfl
  · rintro t em rfl ht hp
    simp only [generateAndParse, if_neg ht, hp]
    rfl
  · rintro t v rfl ht hp
    simp only [generateAndParse, if_neg ht, hp]

/-- Evaluation of C4 (amended) on concrete sessions: an "xhr error"
rejection at 2000 ms yields the network message, an empty response text
yields the malformed-response message, a malformed response whose
platform parse-error message mentions position 500 is misreported with
the network message, and the session delivers exactly the normalized
failure. -/
theorem analyze_error_normalization_witness :
    generateAndParse (fun _ => .error "") (ApiCall.rejected "xhr error") =
      .error netErrMsg ∧
    generateAndParse (fun _ => .error "") (ApiCall.resolved none) =
      .error malformedMsg ∧
    generateAndParse (fun _ => .error "Unexpected token a at position 500")
      (ApiCall.resolved (some "bad json")) = .error netErrMsg ∧
    RaceRun.delivered (runSession 35000 (some 2000)
      (generateAndParse (fun _ => .error "") (ApiCall.resolved none))) =
      [generateAndParse (fun _ => .error "") (ApiCall.resolved none)] ∧
    RaceRun.unhandledRejections (runSession 35000 (some 2000)
      (generateAndParse (fun _ => .error "") (ApiCall.resolved none))) = 0 := by
  have H1 := analyze_error_normalization (fun _ => none)
    (fun _ => .error "") (ApiCall.rejected "xhr error") 2000 (by decide)
  have H2 := analyze_error_normalization (fun _ => none)
    (fun _ => .error "") (ApiCall.resolved none) 2000 (by decide)
  have H3 := analyze_error_normalization (fun _ => none)
    (fun _ => .error "Unexpected token a at position 500")
    (ApiCall.resolved (some "bad json")) 2000 (by decide)
  refine ⟨?_, H2.2.2.1 (Or.inl rfl), ?_, H2.2.2.2.2.2.1, H2.2.2.2.2.2.2⟩
  · have h := H1.2.1 "xhr error" rfl
    rwa [show (strIncludes "xhr error" "xhr error" ||
      strIncludes "xhr error" "500") = true from rfl, if_pos rfl] at h
  · have h := H3.2.2.2.1 "bad json" "Unexpected token a at position 500"
      rfl (by decide) rfl
    rwa [show (strIncludes "Unexpected token a at position 500" "xhr error" ||
      strIncludes "Unexpected token a at position 500" "500") = true from rfl,
      if_pos rfl] at h

/-- Stopping every track of a stream leaves it not live. -/
theorem stopAllTracks_not_live (m : MediaStream) :
    (MediaStream.stopAllTracks m).isLive = false := by
  show (m.tracks.map fun _ => (⟨true⟩ : MediaTrack)).any
    (fun t => !t.stopped) = false
  induction m.tracks with
  | nil => rfl
  | cons a t ih => simp [ih]

/-- The world component returned by `startCamera` comes entirely from the
acquisition attempt. -/
theorem startCamera_world (grant : Constraints → Bool) (n : Nat)
    (vp r2 : Bool) (s : CameraState) (w : DeviceWorld) :
    (startCamera grant n vp r2 s w).2.1 = (acquireStream grant n w).2.1 := by
  unfold startCamera
  rcases acquireStream grant n w with ⟨o, w1, reqs⟩
  cases o <;> cases vp <;> rfl

/-- `acquireStream` either leaves the device world unchanged (both
requests rejected) or allocates exactly one fresh stream. -/
theorem acquireStream_world (grant : Constraints → Bool) (n : Nat)
    (w : DeviceWorld) :
    (acquireStream grant n w).2.1 = w ∨
    (acquireStream grant n w).2.1 =
      ⟨w.streams ++ [⟨List.replicate n ⟨false⟩⟩]⟩ := by
  unfold acquireStream getUserMedia
  cases hp : grant preferredConstraints <;>
    cases hm : grant minimalConstraints <;> simp [hp, hm]

/-- C2: a capture in phase Streaming (refs mounted, stream active, frame
with non-zero dimensions, drawing context available, render and encode
succeeding, the session's single stream attached) stores the encoded
image, hands exactly one base64 payload to the caller, stops every track
of the stream and clears the stream-active flag, leaving no live stream. -/
theorem capturePhoto_streaming_success (env : CaptureEnv) (s : CameraState)
    (w : DeviceWorld) (m : MediaStream) (b : String)
    (hvp : env.videoPresent = true) (hcp : env.canvasPresent = true)
    (hsa : s.streamActive = true)
    (hw0 : env.videoWidth ≠ 0) (hh0 : env.videoHeight ≠ 0)
    (hctx : env.ctxPresent = true) (hdraw : env.drawOk = true)
    (henc : env.encodeOk = true) (hsrc : s.videoSrcObject = some 0)
    (hstr : w.streams = [m])
    (hb : (jsSplit env.dataUrl ',')[1]? = some b) (hbne : b ≠ "") :
    capturePhoto false env s w =
      ({ s with capturedImage := some env.dataUrl, streamActive := false },
        ⟨[m.stopAllTracks]⟩, [b]) ∧
    DeviceWorld.liveCount ⟨[m.stopAllTracks]⟩ = 0 := by
  have hdim : ¬(env.videoWidth = 0 ∨ env.videoHeight = 0) := by
    rintro (h | h)
    exacts [hw0 h, hh0 h]
  constructor
  · simp [capturePhoto, hvp, hcp, hsa, hctx, hdraw, henc, hb, hsrc, hstr,
      if_neg hdim, hbne, stopStreamAt]
  · unfold DeviceWorld.liveCount
    simp [stopAllTracks_not_live]

/-- Evaluation of C2: capturing from the one-live-stream world delivers
the payload after the comma of the data URL and stops the stream. -/
theorem capturePhoto_streaming_success_witness :
    capturePhoto false streamEnv streamingCamState oneLiveWorld =
      ({ streamingCamState with
          capturedImage := some streamEnv.dataUrl, streamActive := false },
        ⟨[MediaStream.stopAllTracks ⟨[⟨false⟩]⟩]⟩, ["QUJD"]) ∧
    DeviceWorld.liveCount ⟨[MediaStream.stopAllTracks ⟨[⟨false⟩]⟩]⟩ = 0 :=
  capturePhoto_streaming_success streamEnv streamingCamState oneLiveWorld
    ⟨[⟨false⟩]⟩ "QUJD" rfl rfl rfl (by decide) (by decide) rfl rfl rfl rfl
    rfl (by decide) (by decide)

/-- C3: a capture attempted while the stream is not active (the
Uninitialized, Requesting and Failed phases) or while the frame has a zero
dimension changes nothing: same component state, same device world, no
payload handed to the caller, hence no orchestration session and no
observable error. -/
theorem capturePhoto_noop_when_not_streaming (ip : Bool) (env : CaptureEnv)
    (s : CameraState) (w : DeviceWorld)
    (h : s.streamActive = false ∨ env.videoWidth = 0 ∨ env.videoHeight = 0) :
    capturePhoto ip env s w = (s, w, []) := by
  cases ip with
  | true => rfl
  | false => rcases h with h | h | h <;> simp [capturePhoto, h]

/-- Evaluation of C3: capture before any stream is active is a no-op. -/
theorem capturePhoto_noop_when_not_streaming_witness :
    capturePhoto false streamEnv idleCamState ⟨[]⟩ = (idleCamState, ⟨[]⟩, []) :=
  capturePhoto_noop_when_not_streaming false streamEnv idleCamState ⟨[]⟩
    (Or.inl rfl)

/-- C5 counterexample: `startCamera` invoked while the session is already
Streaming (one live stream attached) is not a no-op — it acquires a second
stream without stopping the first, leaving two live streams and a changed
component state. -/
theorem startCamera_reentrant_two_live_streams :
    ((startCamera (fun _ => true) 1 true true streamingCamState
      oneLiveWorld).2.1).liveCount = 2 ∧
    (startCamera (fun _ => true) 1 true true streamingCamState
      oneLiveWorld).1 ≠ streamingCamState := by
  constructor <;> decide

/-- C5 (amended): `startCamera` has no re-entrancy guard, so a call while
a stream is live can leave two live streams; but whenever no stream is
live at entry — in particular after a session that ended in Captured,
since capture stops every track — a call leaves at most one live stream. -/
theorem startCamera_after_captured_single_stream (grant : Constraints → Bool)
    (n : Nat) (vp r2 : Bool) (s : CameraState) (w : DeviceWorld)
    (h : w.liveCount = 0) :
    ((startCamera grant n vp r2 s w).2.1).liveCount ≤ 1 := by
  rw [startCamera_world]
  rcases acquireStream_world grant n w with hw | hw
  · rw [hw]
    omega
  · rw [hw]
    unfold DeviceWorld.liveCount at h ⊢
    rw [List.filter_append, List.length_append, h]
    have hle := List.length_filter_le MediaStream.isLive
      [(⟨List.replicate n ⟨false⟩⟩ : MediaStream)]
    simpa using hle

/-- Evaluation of C5 (amended): re-initializing after a captured session
(whose only stream was stopped) leaves at most one live stream. -/
theorem startCamera_after_captured_single_stream_witness :
    DeviceWorld.liveCount capturedWorld = 0 ∧
    ((startCamera (fun _ => true) 1 true true capturedCamState
      capturedWorld).2.1).liveCount ≤ 1 :=
  ⟨by decide, startCamera_after_captured_single_stream (fun _ => true) 1
    true true capturedCamState capturedWorld (by decide)⟩

/-- C6: every `startCamera` call requests the preferred constraints first
(video only, rear-facing ideal, 1920 by 1080 ideal); exactly when that
request is rejected it retries once with the minimal constraints (plain
video, no audio); the error is the single camera-unavailable message
exactly when both attempts are rejected, and is cleared otherwise. -/
theorem startCamera_constraint_fallback (grant : Constraints → Bool)
    (n : Nat) (vp r2 : Bool) (s : CameraState) (w : DeviceWorld) :
    (startCamera grant n vp r2 s w).2.2 =
      (if grant preferredConstraints then [preferredConstraints]
       else [preferredConstraints, minimalConstraints]) ∧
    (startCamera grant n vp r2 s w).1.error =
      (if grant preferredConstraints || grant minimalConstraints then none
       else some cameraErrMsg) ∧
    preferredConstraints.video = true ∧ preferredConstraints.audio = false ∧
    preferredConstraints.facingModeIdealEnvironment = true ∧
    preferredConstraints.idealWidth = some 1920 ∧
    preferredConstraints.idealHeight = some 1080 ∧
    minimalConstraints = ⟨true, false, false, none, none⟩ := by
  refine ⟨?_, ?_, rfl, rfl, rfl, rfl, rfl, rfl⟩ <;>
    unfold startCamera acquireStream getUserMedia <;>
    cases hp : grant preferredConstraints <;>
    cases hm : grant minimalConstraints <;> cases vp <;> simp [hp, hm]

/-- C9: every entry into `startCamera` clears the stored still image,
whatever the prior state and whatever the acquisition outcome. -/
theorem startCamera_voids_captured_image (grant : Constraints → Bool)
    (n : Nat) (vp r2 : Bool) (s : CameraState) (w : DeviceWorld) :
    ((startCamera grant n vp r2 s w).1).capturedImage = none := by
  unfold startCamera
  rcases acquireStream grant n w with ⟨o, w1, reqs⟩
  cases o <;> cases vp <;> rfl

/-- C10: when `drawImage` or `toDataURL` throws, the inner catch absorbs
the error and the capture changes nothing: same component state (still
Streaming when it was), same device world (no track stopped), no image
stored and no payload handed to the caller. -/
theorem capturePhoto_draw_failure_keeps_state (ip : Bool) (env : CaptureEnv)
    (s : CameraState) (w : DeviceWorld)
    (h : env.drawOk = false ∨ env.encodeOk = false) :
    capturePhoto ip env s w = (s, w, []) := by
  cases ip with
  | true => rfl
  | false =>
    have hde : (env.drawOk && env.encodeOk) = false := by
      rcases h with h | h <;> simp [h]
    simp [capturePhoto, hde]

/-- Evaluation of C10: a failing render in an otherwise capture-ready
Streaming session keeps the state, the stream and the silence intact. -/
theorem capturePhoto_draw_failure_keeps_state_witness :
    capturePhoto false failingDrawEnv streamingCamState oneLiveWorld =
      (streamingCamState, oneLiveWorld, []) :=
  capturePhoto_draw_failure_keeps_state false failingDrawEnv
    streamingCamState oneLiveWorld (Or.inl rfl)

/-- C8: the API credential the collaborator client is built with is read
from the process configuration at each invocation, so two invocations
running under different configurations each see their own value — a
rotated credential is picked up by the later invocation. -/
theorem apiKey_read_per_invocation (env1 env2 : EnvMap)
    (p1 p2 : String → Except String AnalysisResponse) (c1 c2 : ApiCall)
    (k1 k2 : String) (h1 : env1 "API_KEY" = some k1)
    (h2 : env2 "API_KEY" = some k2) :
    (analyzeIngredientsAndGetRecipes env1 p1 c1).1.apiKey = some k1 ∧
    (analyzeIngredientsAndGetRecipes env2 p2 c2).1.apiKey = some k2 :=
  ⟨h1, h2⟩

/-- Evaluation of C8 across a rotation from key-v1 to key-v2. -/
theorem apiKey_read_per_invocation_witness :
    (analyzeIngredientsAndGetRecipes envBefore (fun _ => .error "")
      (ApiCall.resolved none)).1.apiKey = some "key-v1" ∧
    (analyzeIngredientsAndGetRecipes envAfter (fun _ => .error "")
      (ApiCall.resolved none)).1.apiKey = some "key-v2" :=
  apiKey_read_per_invocation envBefore envAfter (fun _ => .error "")
    (fun _ => .error "") (ApiCall.resolved none) (ApiCall.resolved none)
    "key-v1" "key-v2" (by decide) (by decide)

end SmartScan
